import Mathlib

/-!
Verification of the `black_magic` build-orchestration tool (src/main.rs).

The program is a single straight-line `main` that reads command-line flags,
probes the docker runtime and the project directory, ensures a builder image
exists, composes volume mounts, runs a containerized compile, and packages
the result. We embed it shallowly: an `Env` record captures every external
input main consumes (flag presence, process spawn outcomes, captured
stdout/stderr, filesystem existence probes), and `main : Env → List Event`
produces the trace of observable effects (prints, external process
invocations, filesystem mutations, working-directory changes, panics) in
the order the source performs them.
-/

namespace BlackMagic

/-- One observable effect of the program, in source order.
`removeDirAll` is included so that "the program never removes a directory"
is a statement about the trace; the source contains no removal call, so the
embedded `main` never emits it. -/
inductive Event where
  | print (msg : String)
  | runCmd (prog : String) (args : List String)
  | panic (msg : String)
  | getCurrentDir
  | createDirAll (path : String)
  | removeDirAll (path : String)
  | writeFile (path : String) (content : String)
  | setCurrentDir (path : String)
deriving DecidableEq, Repr

/-- All external inputs `main` consumes, fixed for one invocation.
`sep` is the host path separator that `PathBuf::push` inserts
(`"/"` on unix hosts, `"\\"` on windows hosts); we keep it abstract so every
theorem covers both platforms. -/
structure Env where
  /-- `matches.is_present("DOCKER")` -/
  is_docker : Bool
  /-- `matches.is_present("LAMBDA")` -/
  is_lambda : Bool
  /-- whether spawning `docker --version` succeeds at all (line 86 `.expect`) -/
  docker_spawn_ok : Bool
  /-- captured stdout of `docker --version` -/
  docker_version_stdout : String
  /-- `env::current_dir()` as a string -/
  current_dir : String
  /-- `current_dir.file_name()` as a string -/
  project_name : String
  /-- whether `Cargo.toml` exists in the current directory -/
  cargo_toml_exists : Bool
  /-- captured stderr of `docker image inspect black_magic` -/
  image_inspect_stderr : String
  /-- exit status of `docker build -t black_magic .` -/
  builder_build_success : Bool
  /-- `home::cargo_home()` as a string -/
  cargo_home : String
  /-- whether `<cargo_home>/git` exists -/
  git_exists : Bool
  /-- whether `<cargo_home>/registry` exists -/
  registry_exists : Bool
  /-- exit status of the chained `docker run ...` compile command -/
  build_success : Bool
  /-- captured stdout of the compile command -/
  build_stdout : String
  /-- captured stderr of the compile command -/
  build_stderr : String
  /-- exit status of the final `docker build --no-cache -t bm_<p> .` -/
  project_image_success : Bool
  /-- captured stdout of the project-image build -/
  project_image_stdout : String
  /-- captured stderr of the project-image build -/
  project_image_stderr : String
  /-- host path separator inserted by `PathBuf::push` -/
  sep : String
deriving Repr

/-- Rust `str::starts_with` / byte-slice `starts_with`, on characters. -/
def strStartsWith (s p : String) : Bool :=
  p.data.isPrefixOf s.data

/-- Rust `str::replace(r"\", r"/")`: the pattern is the single character
`\`, so it is the character-wise substitution. -/
def replaceBackslash (s : String) : String :=
  ⟨s.data.map fun c => if c = '\\' then '/' else c⟩

/-- `PathBuf::push` of one component, with the host separator. -/
def joinPath (env : Env) (p c : String) : String :=
  p ++ env.sep ++ c

/-- `BM_DOCKERFILE` constant (lines 53-58). -/
def BM_DOCKERFILE : String :=
  "\nFROM registry.gitlab.com/rust_musl_docker/image:nightly-2020-04-23\nRUN apt-get update\nRUN apt-get install zip -y\nRUN apt-get install tar -y\n"

/-- `bm_dir`: `<current_dir>/target/black_magic` (lines 101-103). -/
def bmDir (env : Env) : String :=
  joinPath env (joinPath env env.current_dir "target") "black_magic"

/-- The scratch builder directory `<bm_dir>/bm_dockerfile` (lines 111-112). -/
def bmDockerfileDir (env : Env) : String :=
  joinPath env (bmDir env) "bm_dockerfile"

/-- The builder Dockerfile path `<bm_dir>/bm_dockerfile/Dockerfile` (line 117). -/
def bmDockerfilePath (env : Env) : String :=
  joinPath env (bmDockerfileDir env) "Dockerfile"

/-- The project Dockerfile path `<bm_dir>/Dockerfile` (lines 204-205). -/
def projectDockerfilePath (env : Env) : String :=
  joinPath env (bmDir env) "Dockerfile"

/-- Content written to the project Dockerfile (lines 207-211). -/
def projectDockerfileContent (env : Env) : String :=
  "\nFROM scratch\nADD " ++ env.project_name ++ ".tar.gz /\n"

/-- `current_dir_volume` (line 131). -/
def currentDirVolume (env : Env) : String :=
  replaceBackslash env.current_dir ++ ":/workdir"

/-- The git cache mount string, when present (lines 135-144). -/
def gitMountStr (env : Env) : String :=
  replaceBackslash (joinPath env env.cargo_home "git") ++ ":/root/.cargo/git"

/-- `git_volume` (lines 135-144). -/
def gitVolume (env : Env) : Option String :=
  if env.git_exists then some (gitMountStr env) else none

/-- The registry cache mount string, when present (lines 146-155). -/
def registryMountStr (env : Env) : String :=
  replaceBackslash (joinPath env env.cargo_home "registry") ++ ":/root/.cargo/registry"

/-- `registry_volume` (lines 146-155). -/
def registryVolume (env : Env) : Option String :=
  if env.registry_exists then some (registryMountStr env) else none

/-- The set of host-to-container volume mounts of one invocation:
the project-root mount plus the optional cache mounts (lines 131-176). -/
def mounts (env : Env) : List String :=
  currentDirVolume env :: ((gitVolume env).toList ++ (registryVolume env).toList)

/-- Argument list of the chained `docker run` compile command
(lines 163-176 plus the mode-specific tail), for in-container command `c`. -/
def dockerRunArgs (env : Env) (c : String) : List String :=
  ["run", "-i", "--rm", "-v", currentDirVolume env]
  ++ (match gitVolume env with
      | some g => ["-v", g]
      | none => [])
  ++ (match registryVolume env with
      | some r => ["-v", r]
      | none => [])
  ++ ["black_magic", "/bin/bash", "-c", c]

/-- The chained in-container command of Docker mode (lines 194-196). -/
def dockerCargoCmd (env : Env) : String :=
  "cargo build --release -vv --target=x86_64-unknown-linux-musl -Z unstable-options --out-dir=/ && tar -czf target/black_magic/"
  ++ env.project_name ++ ".tar.gz /" ++ env.project_name

/-- The chained in-container command of Lambda mode (lines 265-267). -/
def lambdaCargoCmd (env : Env) : String :=
  "cargo build --release -vv --target=x86_64-unknown-linux-musl -Z unstable-options --out-dir=/ && mv /"
  ++ env.project_name ++ " /bootstrap && zip -j target/black_magic/"
  ++ env.project_name ++ ".zip /bootstrap"

/-- Rust `{:?}` Debug rendering of a `Command`: quoted program and args. -/
def commandDebug (prog : String) (args : List String) : String :=
  String.intercalate " " ((prog :: args).map fun a => "\"" ++ a ++ "\"")

/-- Events of the builder-image build branch (lines 109-126), taken only
when the inspection stderr matches the no-such-image prefix. A failed build
panics (line 123), ending the trace. -/
def builderBuildEvents (env : Env) : List Event :=
  [Event.print "Building black_magic image...",
   Event.createDirAll (bmDockerfileDir env),
   Event.setCurrentDir (bmDockerfileDir env),
   Event.writeFile (bmDockerfilePath env) BM_DOCKERFILE,
   Event.runCmd "docker" ["build", "-t", "black_magic", "."]]
  ++ (if env.builder_build_success then
        [Event.setCurrentDir env.current_dir]
      else
        [Event.panic "Unable to build `black_magic` image."])

/-- Events printed when the chained compile command fails (both modes,
lines 241-246 and 277-282). -/
def buildFailEvents (env : Env) (c : String) : List Event :=
  [Event.print "Build failed. Run the following command manually to see the problem:",
   Event.print "",
   Event.print (commandDebug "docker" (dockerRunArgs env c)),
   Event.print "",
   Event.print ("stdout: " ++ env.build_stdout),
   Event.print ("stderr: " ++ env.build_stderr)]

/-- The Docker-mode compile-and-package branch (lines 178-247). -/
def dockerMode (env : Env) : List Event :=
  Event.print "Compiling project..." ::
  Event.runCmd "docker" (dockerRunArgs env (dockerCargoCmd env)) ::
  (if env.build_success then
    Event.print (projectDockerfilePath env) ::
    Event.writeFile (projectDockerfilePath env) (projectDockerfileContent env) ::
    Event.print "Building project image..." ::
    Event.setCurrentDir (bmDir env) ::
    Event.runCmd "docker" ["build", "--no-cache", "-t", "bm_" ++ env.project_name, "."] ::
    Event.setCurrentDir env.current_dir ::
    (if env.project_image_success then
      [Event.print ("Project image: bm_" ++ env.project_name),
       Event.print "...Done!"]
    else
      [Event.print "Project image failed",
       Event.print ("stdout: " ++ env.project_image_stdout),
       Event.print ("stderr: " ++ env.project_image_stderr)])
  else buildFailEvents env (dockerCargoCmd env))

/-- The Lambda-mode compile-and-package branch (lines 248-284). -/
def lambdaMode (env : Env) : List Event :=
  Event.print "Compiling project to lambda zip..." ::
  Event.runCmd "docker" (dockerRunArgs env (lambdaCargoCmd env)) ::
  (if env.build_success then
    [Event.print "...Done!"]
  else buildFailEvents env (lambdaCargoCmd env))

/-- Mode dispatch (line 178). -/
def compileAndPackage (env : Env) : List Event :=
  if env.is_docker then dockerMode env else lambdaMode env

/-- The pipeline after the mode/runtime/manifest gates have passed
(lines 101-284): create the build-output directory, inspect the builder
image, build it when the no-such-image prefix matches, then compile and
package. A failed builder build panics, so nothing follows it. -/
def pipeline (env : Env) : List Event :=
  Event.createDirAll (bmDir env) ::
  Event.runCmd "docker" ["image", "inspect", "black_magic"] ::
  (if strStartsWith env.image_inspect_stderr "Error: No such image: black_magic" then
    builderBuildEvents env
    ++ (if env.builder_build_success then compileAndPackage env else [])
  else compileAndPackage env)

/-- The whole program (lines 60-285) as its trace of observable effects. -/
def main (env : Env) : List Event :=
  if !env.is_docker && !env.is_lambda then
    [Event.print "You need to specify what to build. See `--help`."]
  else if env.is_docker && env.is_lambda then
    [Event.print "You can\x27t specify both at once, please build one then the other."]
  else
    Event.runCmd "docker" ["--version"] ::
    (if !env.docker_spawn_ok then
      [Event.panic "Unable to test for docker. Is docker installed on your system?"]
    else if !(strStartsWith env.docker_version_stdout "Docker version") then
      [Event.print "It looks like Docker is not installed on your system. Running `docker --version` did not produce expected result."]
    else
      Event.getCurrentDir ::
      (if !env.cargo_toml_exists then
        [Event.print "This doesn\x27t look like a rust project. Are you in the right place? No `Cargo.toml` was found in this directory."]
      else pipeline env))

/-- A fully successful Lambda-mode invocation, with a windows-style host
path, used as concrete input of the witnesses. -/
def envLambda : Env :=
  Env.mk false true true "Docker version 20.10.7, build f0df350" "C:\\code\\my_project"
    "my_project" true "" true "C:\\Users\\u\\.cargo" true true true "" "" true "" "" "\\"

/-- A fully successful Docker-mode invocation on a unix-style host. -/
def envDocker : Env :=
  Env.mk true false true "Docker version 20.10.7, build f0df350" "/home/u/my_project"
    "my_project" true "" true "/home/u/.cargo" false true true "" "" true "" "" "/"

example : mounts envDocker =
    ["/home/u/my_project:/workdir", "/home/u/.cargo/registry:/root/.cargo/registry"] := by
  decide

example : main (Env.mk false false true "" "" "" true "" true "" true true true "" "" true "" "" "/")
    = [Event.print "You need to specify what to build. See `--help`."] := by
  decide

/-! ### Helper lemmas on strings -/

theorem string_ne_of_length_ne {a b : String} (h : a.length ≠ b.length) : a ≠ b := by
  intro e
  exact h (by rw [e])

theorem append_ne_of_suffix_clash (s1 s2 a b : String)
    (hle : a.data.length ≤ b.data.length)
    (hne : a.data.reverse ≠ b.data.reverse.take a.data.length) :
    s1 ++ a ≠ s2 ++ b := by
  intro h
  apply hne
  have hd : s1.data ++ a.data = s2.data ++ b.data := by
    have h2 := congrArg String.data h
    simpa [String.data_append] using h2
  have hr : a.data.reverse ++ s1.data.reverse = b.data.reverse ++ s2.data.reverse := by
    have h3 := congrArg List.reverse hd
    simpa [List.reverse_append] using h3
  have h4 : (a.data.reverse ++ s1.data.reverse).take a.data.length = a.data.reverse := by
    have h5 := List.take_left a.data.reverse s1.data.reverse
    rw [List.length_reverse] at h5
    exact h5
  have h6 : (b.data.reverse ++ s2.data.reverse).take a.data.length
      = b.data.reverse.take a.data.length := by
    apply List.take_append_of_le_length
    rw [List.length_reverse]
    exact hle
  rw [← h4, hr, h6]

theorem currentDirVolume_ne_gitMount (env : Env) :
    currentDirVolume env ≠ gitMountStr env :=
  append_ne_of_suffix_clash _ _ ":/workdir" ":/root/.cargo/git" (by decide) (by decide)

theorem currentDirVolume_ne_registryMount (env : Env) :
    currentDirVolume env ≠ registryMountStr env :=
  append_ne_of_suffix_clash _ _ ":/workdir" ":/root/.cargo/registry" (by decide) (by decide)

theorem gitMount_ne_registryMount (env : Env) :
    gitMountStr env ≠ registryMountStr env :=
  append_ne_of_suffix_clash _ _ ":/root/.cargo/git" ":/root/.cargo/registry" (by decide) (by decide)

theorem bmDockerfileDir_ne_bmDir (env : Env) :
    bmDockerfileDir env ≠ bmDir env := by
  have h13 : ("bm_dockerfile" : String).length = 13 := by decide
  apply string_ne_of_length_ne
  simp [bmDockerfileDir, joinPath, String.length_append, h13]
  omega

theorem bmDockerfileDir_ne_currentDir (env : Env) :
    bmDockerfileDir env ≠ env.current_dir := by
  have h13 : ("bm_dockerfile" : String).length = 13 := by decide
  have h6 : ("target" : String).length = 6 := by decide
  have h11 : ("black_magic" : String).length = 11 := by decide
  apply string_ne_of_length_ne
  simp [bmDockerfileDir, bmDir, joinPath, String.length_append, h13, h6, h11]
  omega

theorem bmDockerfilePath_ne_projectDockerfilePath (env : Env) :
    bmDockerfilePath env ≠ projectDockerfilePath env := by
  have h13 : ("bm_dockerfile" : String).length = 13 := by decide
  apply string_ne_of_length_ne
  simp [bmDockerfilePath, projectDockerfilePath, bmDockerfileDir, joinPath,
    String.length_append, h13]
  omega

theorem replaceBackslash_no_backslash (s : String) :
    ((replaceBackslash s).data.all fun c => c != '\\') = true := by
  simp only [replaceBackslash, List.all_map, List.all_eq_true, Function.comp]
  intro c hc
  by_cases h : c = '\\' <;> simp [h]

theorem replaceBackslash_no_bs_mem (s : String) :
    ∀ c ∈ (replaceBackslash s).data, ¬c = '\\' := by
  intro c hc
  have hc2 : c ∈ s.data.map (fun d => if d = '\\' then '/' else d) := hc
  simp only [List.mem_map] at hc2
  obtain ⟨d, hd, hdc⟩ := hc2
  subst hdc
  by_cases h : d = '\\' <;> simp [h]

theorem mount_no_backslash (s t : String)
    (ht : (t.data.all fun c => c != '\\') = true) :
    ((replaceBackslash s ++ t).data.all fun c => c != '\\') = true := by
  have h := replaceBackslash_no_backslash s
  simp [String.data_append, List.all_append, ht]
  simp only [List.all_eq_true] at h
  intro c hc
  simpa using h c hc

/-! ### Events particular stages never emit -/

theorem builder_cmd_not_in_compile (env : Env) :
    Event.runCmd "docker" ["build", "-t", "black_magic", "."] ∉ compileAndPackage env := by
  cases hD : env.is_docker <;> cases hB : env.build_success <;>
    cases hP : env.project_image_success <;>
      simp [compileAndPackage, dockerMode, lambdaMode, buildFailEvents, dockerRunArgs,
        hD, hB, hP]

theorem builder_write_not_in_compile (env : Env) (c : String) :
    Event.writeFile (bmDockerfilePath env) c ∉ compileAndPackage env := by
  cases hD : env.is_docker <;> cases hB : env.build_success <;>
    cases hP : env.project_image_success <;>
      simp [compileAndPackage, dockerMode, lambdaMode, buildFailEvents, hD, hB, hP,
        bmDockerfilePath_ne_projectDockerfilePath env]

theorem builder_cd_not_in_compile (env : Env) :
    Event.setCurrentDir (bmDockerfileDir env) ∉ compileAndPackage env := by
  cases hD : env.is_docker <;> cases hB : env.build_success <;>
    cases hP : env.project_image_success <;>
      simp [compileAndPackage, dockerMode, lambdaMode, buildFailEvents, hD, hB, hP,
        bmDockerfileDir_ne_bmDir env, bmDockerfileDir_ne_currentDir env]

theorem builder_cmd_not_in_main (env : Env)
    (h : strStartsWith env.image_inspect_stderr "Error: No such image: black_magic" = false) :
    Event.runCmd "docker" ["build", "-t", "black_magic", "."] ∉ main env := by
  cases hD : env.is_docker <;> cases hL : env.is_lambda <;>
    cases hS : env.docker_spawn_ok <;>
      cases hV : strStartsWith env.docker_version_stdout "Docker version" <;>
        cases hC : env.cargo_toml_exists <;>
          simp [main, pipeline, h, hD, hL, hS, hV, hC, builder_cmd_not_in_compile]

theorem builder_write_not_in_main (env : Env)
    (h : strStartsWith env.image_inspect_stderr "Error: No such image: black_magic" = false)
    (c : String) :
    Event.writeFile (bmDockerfilePath env) c ∉ main env := by
  cases hD : env.is_docker <;> cases hL : env.is_lambda <;>
    cases hS : env.docker_spawn_ok <;>
      cases hV : strStartsWith env.docker_version_stdout "Docker version" <;>
        cases hC : env.cargo_toml_exists <;>
          simp [main, pipeline, h, hD, hL, hS, hV, hC, builder_write_not_in_compile]

theorem builder_cd_not_in_main (env : Env)
    (h : strStartsWith env.image_inspect_stderr "Error: No such image: black_magic" = false) :
    Event.setCurrentDir (bmDockerfileDir env) ∉ main env := by
  cases hD : env.is_docker <;> cases hL : env.is_lambda <;>
    cases hS : env.docker_spawn_ok <;>
      cases hV : strStartsWith env.docker_version_stdout "Docker version" <;>
        cases hC : env.cargo_toml_exists <;>
          simp [main, pipeline, h, hD, hL, hS, hV, hC, builder_cd_not_in_compile]

theorem removeDir_not_in_builder (env : Env) (p : String) :
    Event.removeDirAll p ∉ builderBuildEvents env := by
  cases hBB : env.builder_build_success <;> simp [builderBuildEvents, hBB]

theorem removeDir_not_in_compile (env : Env) (p : String) :
    Event.removeDirAll p ∉ compileAndPackage env := by
  cases hD : env.is_docker <;> cases hB : env.build_success <;>
    cases hP : env.project_image_success <;>
      simp [compileAndPackage, dockerMode, lambdaMode, buildFailEvents, hD, hB, hP]

theorem removeDir_not_in_pipeline (env : Env) (p : String) :
    Event.removeDirAll p ∉ pipeline env := by
  cases hI : strStartsWith env.image_inspect_stderr "Error: No such image: black_magic" <;>
    cases hBB : env.builder_build_success <;>
      simp [pipeline, hI, hBB, removeDir_not_in_compile, removeDir_not_in_builder]

theorem removeDir_not_in_main (env : Env) (p : String) :
    Event.removeDirAll p ∉ main env := by
  cases hD : env.is_docker <;> cases hL : env.is_lambda <;>
    cases hS : env.docker_spawn_ok <;>
      cases hV : strStartsWith env.docker_version_stdout "Docker version" <;>
        cases hC : env.cargo_toml_exists <;>
          simp [main, hD, hL, hS, hV, hC, removeDir_not_in_pipeline]

/-! ### The claims -/

/-- C1: the builder-image setup is idempotent. Whenever the image
inspection does not report `black_magic` missing (its captured stderr does
not start with the no-such-image prefix), the run performs zero
builder-image build invocations, writes no builder Dockerfile, and never
enters the scratch builder directory. The trace is a function of the host
environment, so a second consecutive invocation on such a host likewise
performs zero build invocations. -/
theorem c1_builder_image_idempotent (env : Env)
    (h : strStartsWith env.image_inspect_stderr "Error: No such image: black_magic" = false) :
    (main env).count (Event.runCmd "docker" ["build", "-t", "black_magic", "."]) = 0 ∧
    (∀ c, Event.writeFile (bmDockerfilePath env) c ∉ main env) ∧
    Event.setCurrentDir (bmDockerfileDir env) ∉ main env :=
  ⟨List.count_eq_zero.mpr (builder_cmd_not_in_main env h),
   fun c => builder_write_not_in_main env h c,
   builder_cd_not_in_main env h⟩

/-- C4: selecting both build modes, or neither, makes the program print one
message and return: the trace is exactly that single print, so no external
process is invoked, no directory is created or entered, no file is
written, and the current directory (the project context) is never
resolved. -/
theorem c4_mode_conflict_aborts_early (env : Env)
    (h : env.is_docker = env.is_lambda) :
    main env = [Event.print (if env.is_docker then
        "You can\x27t specify both at once, please build one then the other."
      else
        "You need to specify what to build. See `--help`.")] ∧
    (∀ p a, Event.runCmd p a ∉ main env) ∧
    (∀ p, Event.createDirAll p ∉ main env) ∧
    (∀ p c, Event.writeFile p c ∉ main env) ∧
    (∀ p, Event.setCurrentDir p ∉ main env) ∧
    Event.getCurrentDir ∉ main env := by
  have hL : env.is_lambda = env.is_docker := h.symm
  cases hD : env.is_docker <;> rw [hD] at hL <;>
    refine ⟨?_, ?_, ?_, ?_, ?_, ?_⟩ <;> simp [main, hD, hL]

/-- C5: when no `Cargo.toml` manifest exists in the current directory, the
run never reaches the builder-image inspection and never creates the
build-output directory; and an invocation that passed the mode and runtime
gates rejects with exactly the not-a-project message. -/
theorem c5_missing_manifest_rejects_before_inspection (env : Env)
    (h : env.cargo_toml_exists = false) :
    Event.runCmd "docker" ["image", "inspect", "black_magic"] ∉ main env ∧
    (∀ p, Event.createDirAll p ∉ main env) ∧
    (env.is_docker ≠ env.is_lambda → env.docker_spawn_ok = true →
      strStartsWith env.docker_version_stdout "Docker version" = true →
      main env = [Event.runCmd "docker" ["--version"], Event.getCurrentDir,
        Event.print "This doesn\x27t look like a rust project. Are you in the right place? No `Cargo.toml` was found in this directory."]) := by
  refine ⟨?_, ?_, ?_⟩
  · cases hD : env.is_docker <;> cases hL : env.is_lambda <;>
      cases hS : env.docker_spawn_ok <;>
        cases hV : strStartsWith env.docker_version_stdout "Docker version" <;>
          simp [main, h, hD, hL, hS, hV]
  · intro p
    cases hD : env.is_docker <;> cases hL : env.is_lambda <;>
      cases hS : env.docker_spawn_ok <;>
        cases hV : strStartsWith env.docker_version_stdout "Docker version" <;>
          simp [main, h, hD, hL, hS, hV]
  · intro hmode hS hV
    cases hD : env.is_docker <;> cases hL : env.is_lambda
    · rw [hD, hL] at hmode; exact absurd rfl hmode
    · simp [main, h, hD, hL, hS, hV]
    · simp [main, h, hD, hL, hS, hV]
    · rw [hD, hL] at hmode; exact absurd rfl hmode

/-- C8: the builder-image absence test is an exact prefix match on the
inspection stderr. In a run that passed the mode, runtime and manifest
gates, a builder-image build is invoked if and only if the captured stderr
of `docker image inspect black_magic` begins with the literal
`Error: No such image: black_magic`; any other inspection output — such as
a daemon-unreachable error — is treated as the image existing and the
build step is silently skipped. -/
theorem c8_absence_test_is_exact_prefix_match (env : Env)
    (hmode : env.is_docker ≠ env.is_lambda)
    (hS : env.docker_spawn_ok = true)
    (hV : strStartsWith env.docker_version_stdout "Docker version" = true)
    (hC : env.cargo_toml_exists = true) :
    Event.runCmd "docker" ["build", "-t", "black_magic", "."] ∈ main env
      ↔ strStartsWith env.image_inspect_stderr "Error: No such image: black_magic" = true := by
  cases hI : strStartsWith env.image_inspect_stderr "Error: No such image: black_magic"
  · simp only [hI, Bool.false_eq_true, iff_false]
    exact builder_cmd_not_in_main env hI
  · simp only [hI, iff_true]
    cases hD : env.is_docker <;> cases hL : env.is_lambda
    · rw [hD, hL] at hmode; exact absurd rfl hmode
    · cases hBB : env.builder_build_success <;>
        simp [main, pipeline, builderBuildEvents, hD, hL, hS, hV, hC, hI, hBB]
    · cases hBB : env.builder_build_success <;>
        simp [main, pipeline, builderBuildEvents, hD, hL, hS, hV, hC, hI, hBB]
    · rw [hD, hL] at hmode; exact absurd rfl hmode

/-- C9: once the mode, runtime and manifest gates have passed, the
build-output directory `target/black_magic` is created before the
builder-image inspection runs, regardless of the selected mode; and no run
of the program ever removes a directory. -/
theorem c9_output_dir_created_before_inspection (env : Env)
    (hmode : env.is_docker ≠ env.is_lambda)
    (hS : env.docker_spawn_ok = true)
    (hV : strStartsWith env.docker_version_stdout "Docker version" = true)
    (hC : env.cargo_toml_exists = true) :
    (∃ rest, main env =
      [Event.runCmd "docker" ["--version"], Event.getCurrentDir,
       Event.createDirAll (bmDir env),
       Event.runCmd "docker" ["image", "inspect", "black_magic"]] ++ rest) ∧
    (∀ p, Event.removeDirAll p ∉ main env) := by
  constructor
  · cases hD : env.is_docker <;> cases hL : env.is_lambda
    · rw [hD, hL] at hmode; exact absurd rfl hmode
    · simp [main, pipeline, hD, hL, hS, hV, hC]
    · simp [main, pipeline, hD, hL, hS, hV, hC]
    · rw [hD, hL] at hmode; exact absurd rfl hmode
  · exact fun p => removeDir_not_in_main env p

/-- C10: the runtime-availability check. With a valid mode selection: when
spawning `docker --version` fails, the program aborts via the panic
`Unable to test for docker. Is docker installed on your system?` and the
graceful message is never printed; the graceful unavailable-runtime
message is reached exactly when the command spawns but its captured stdout
does not byte-prefix-match `Docker version`. -/
theorem c10_runtime_check_panics_on_spawn_failure (env : Env)
    (hmode : env.is_docker ≠ env.is_lambda) :
    (env.docker_spawn_ok = false →
      main env = [Event.runCmd "docker" ["--version"],
        Event.panic "Unable to test for docker. Is docker installed on your system?"]) ∧
    (env.docker_spawn_ok = true →
      strStartsWith env.docker_version_stdout "Docker version" = false →
      main env = [Event.runCmd "docker" ["--version"],
        Event.print "It looks like Docker is not installed on your system. Running `docker --version` did not produce expected result."]) := by
  constructor
  · intro hS
    cases hD : env.is_docker <;> cases hL : env.is_lambda
    · rw [hD, hL] at hmode; exact absurd rfl hmode
    · simp [main, hD, hL, hS]
    · simp [main, hD, hL, hS]
    · rw [hD, hL] at hmode; exact absurd rfl hmode
  · intro hS hV
    cases hD : env.is_docker <;> cases hL : env.is_lambda
    · rw [hD, hL] at hmode; exact absurd rfl hmode
    · simp [main, hD, hL, hS, hV]
    · simp [main, hD, hL, hS, hV]
    · rw [hD, hL] at hmode; exact absurd rfl hmode

/-- C2: a successful Lambda-mode run. The trace ends with the single
chained container invocation — whose in-container command builds the
project in release mode for the musl target, renames the compiled binary
`/P` to the fixed entry-point name `/bootstrap`, and compresses exactly
that one file flat (`zip -j`, no directory prefix) into
`target/black_magic/P.zip` — followed only by the success print, so no
further external process is invoked after the container exits. -/
theorem c2_lambda_mode_packaging (env : Env)
    (hd : env.is_docker = false) (hl : env.is_lambda = true)
    (hS : env.docker_spawn_ok = true)
    (hV : strStartsWith env.docker_version_stdout "Docker version" = true)
    (hC : env.cargo_toml_exists = true)
    (himg : strStartsWith env.image_inspect_stderr "Error: No such image: black_magic" = false
      ∨ env.builder_build_success = true)
    (hb : env.build_success = true) :
    ∃ pre, main env = pre ++
      [Event.runCmd "docker" (dockerRunArgs env
        ("cargo build --release -vv --target=x86_64-unknown-linux-musl -Z unstable-options --out-dir=/ && mv /"
          ++ env.project_name ++ " /bootstrap && zip -j target/black_magic/"
          ++ env.project_name ++ ".zip /bootstrap")),
       Event.print "...Done!"] := by
  cases hI : strStartsWith env.image_inspect_stderr "Error: No such image: black_magic"
  · refine ⟨[Event.runCmd "docker" ["--version"], Event.getCurrentDir,
      Event.createDirAll (bmDir env),
      Event.runCmd "docker" ["image", "inspect", "black_magic"],
      Event.print "Compiling project to lambda zip..."], ?_⟩
    simp [main, pipeline, compileAndPackage, lambdaMode, lambdaCargoCmd,
      hd, hl, hS, hV, hC, hI, hb]
  · have hBB : env.builder_build_success = true := by
      rcases himg with h0 | h1
      · rw [hI] at h0; simp at h0
      · exact h1
    refine ⟨[Event.runCmd "docker" ["--version"], Event.getCurrentDir,
      Event.createDirAll (bmDir env),
      Event.runCmd "docker" ["image", "inspect", "black_magic"],
      Event.print "Building black_magic image...",
      Event.createDirAll (bmDockerfileDir env),
      Event.setCurrentDir (bmDockerfileDir env),
      Event.writeFile (bmDockerfilePath env) BM_DOCKERFILE,
      Event.runCmd "docker" ["build", "-t", "black_magic", "."],
      Event.setCurrentDir env.current_dir,
      Event.print "Compiling project to lambda zip..."], ?_⟩
    simp [main, pipeline, builderBuildEvents, compileAndPackage, lambdaMode, lambdaCargoCmd,
      hd, hl, hS, hV, hC, hI, hBB, hb]

/-- C3: a successful Docker-mode run. After the container invocation
succeeds, the trace writes the project image definition file into the
build-output directory with content exactly the from-empty-base two-line
template parameterized with the project name (`FROM scratch` then
`ADD P.tar.gz /`), enters the build-output directory, invokes the image
build with caching disabled tagged `bm_` plus the project name, restores
the working directory, and reports the tag `bm_P` on success. -/
theorem c3_docker_mode_packaging (env : Env)
    (hd : env.is_docker = true) (hl : env.is_lambda = false)
    (hS : env.docker_spawn_ok = true)
    (hV : strStartsWith env.docker_version_stdout "Docker version" = true)
    (hC : env.cargo_toml_exists = true)
    (himg : strStartsWith env.image_inspect_stderr "Error: No such image: black_magic" = false
      ∨ env.builder_build_success = true)
    (hb : env.build_success = true)
    (hp : env.project_image_success = true) :
    ∃ pre, main env = pre ++
      [Event.writeFile (projectDockerfilePath env)
        ("\nFROM scratch\nADD " ++ env.project_name ++ ".tar.gz /\n"),
       Event.print "Building project image...",
       Event.setCurrentDir (bmDir env),
       Event.runCmd "docker" ["build", "--no-cache", "-t", "bm_" ++ env.project_name, "."],
       Event.setCurrentDir env.current_dir,
       Event.print ("Project image: bm_" ++ env.project_name),
       Event.print "...Done!"] := by
  cases hI : strStartsWith env.image_inspect_stderr "Error: No such image: black_magic"
  · refine ⟨[Event.runCmd "docker" ["--version"], Event.getCurrentDir,
      Event.createDirAll (bmDir env),
      Event.runCmd "docker" ["image", "inspect", "black_magic"],
      Event.print "Compiling project...",
      Event.runCmd "docker" (dockerRunArgs env (dockerCargoCmd env)),
      Event.print (projectDockerfilePath env)], ?_⟩
    simp [main, pipeline, compileAndPackage, dockerMode, projectDockerfileContent,
      hd, hl, hS, hV, hC, hI, hb, hp]
  · have hBB : env.builder_build_success = true := by
      rcases himg with h0 | h1
      · rw [hI] at h0; simp at h0
      · exact h1
    refine ⟨[Event.runCmd "docker" ["--version"], Event.getCurrentDir,
      Event.createDirAll (bmDir env),
      Event.runCmd "docker" ["image", "inspect", "black_magic"],
      Event.print "Building black_magic image...",
      Event.createDirAll (bmDockerfileDir env),
      Event.setCurrentDir (bmDockerfileDir env),
      Event.writeFile (bmDockerfilePath env) BM_DOCKERFILE,
      Event.runCmd "docker" ["build", "-t", "black_magic", "."],
      Event.setCurrentDir env.current_dir,
      Event.print "Compiling project...",
      Event.runCmd "docker" (dockerRunArgs env (dockerCargoCmd env)),
      Event.print (projectDockerfilePath env)], ?_⟩
    simp [main, pipeline, builderBuildEvents, compileAndPackage, dockerMode,
      projectDockerfileContent, hd, hl, hS, hV, hC, hI, hBB, hb, hp]

/-- C6: the computed set of volume mounts always contains the binding of
the project root to the fixed in-container path `/workdir`; it contains
the git-fetch cache binding exactly when `<cargo_home>/git` exists on the
host, the package-registry cache binding exactly when
`<cargo_home>/registry` exists, and nothing else. -/
theorem c6_mounts_exactly_project_root_and_existing_caches (env : Env) :
    currentDirVolume env = replaceBackslash env.current_dir ++ ":/workdir" ∧
    currentDirVolume env ∈ mounts env ∧
    (gitMountStr env ∈ mounts env ↔ env.git_exists = true) ∧
    (registryMountStr env ∈ mounts env ↔ env.registry_exists = true) ∧
    (∀ m ∈ mounts env,
      m = currentDirVolume env ∨ m = gitMountStr env ∨ m = registryMountStr env) := by
  refine ⟨rfl, ?_, ?_, ?_, ?_⟩ <;>
    cases hg : env.git_exists <;> cases hr : env.registry_exists <;>
      simp [mounts, gitVolume, registryVolume, hg, hr,
        (currentDirVolume_ne_gitMount env).symm,
        (currentDirVolume_ne_registryMount env).symm,
        gitMount_ne_registryMount env,
        (gitMount_ne_registryMount env).symm]

/-- C7: no mount string handed to the container runtime contains a
backslash, on any host platform and for any host paths: every backslash in
a host path is replaced by a forward slash before the mount string is
formed, and the container-side halves contain none. -/
theorem c7_mount_paths_have_no_backslash (env : Env) :
    ((mounts env).all fun m => m.data.all fun c => c != '\\') = true := by
  cases hg : env.git_exists <;> cases hr : env.registry_exists <;>
    simp [mounts, gitVolume, registryVolume, currentDirVolume, gitMountStr,
      registryMountStr, hg, hr] <;>
    first
      | exact replaceBackslash_no_bs_mem _
      | exact ⟨replaceBackslash_no_bs_mem _, replaceBackslash_no_bs_mem _⟩
      | exact ⟨replaceBackslash_no_bs_mem _, replaceBackslash_no_bs_mem _,
          replaceBackslash_no_bs_mem _⟩

/-! ### Witnesses at concrete environments -/

/-- An invocation with neither build-mode flag. -/
def envNone : Env :=
  Env.mk false false true "Docker version 20.10.7, build f0df350" "/home/u/p" "p" true ""
    true "/home/u/.cargo" true true true "" "" true "" "" "/"

/-- A Lambda-mode invocation whose working directory has no manifest. -/
def envNoCargo : Env :=
  Env.mk false true true "Docker version 20.10.7, build f0df350" "/home/u/p" "p" false ""
    true "/home/u/.cargo" true true true "" "" true "" "" "/"

/-- A Lambda-mode invocation on a host missing the builder image. -/
def envMissingImage : Env :=
  Env.mk false true true "Docker version 20.10.7, build f0df350" "/home/u/p" "p" true
    "Error: No such image: black_magic" true "/home/u/.cargo" true true true "" "" true
    "" "" "/"

/-- A Docker-mode invocation where spawning `docker --version` fails. -/
def envNoSpawn : Env :=
  Env.mk true false false "" "/home/u/p" "p" true "" true "/home/u/.cargo" true true true
    "" "" true "" "" "/"

/-- Witness of C1 on a concrete host where the builder image exists. -/
theorem c1_builder_image_idempotent_witness :
    strStartsWith envLambda.image_inspect_stderr "Error: No such image: black_magic" = false ∧
    (main envLambda).count (Event.runCmd "docker" ["build", "-t", "black_magic", "."]) = 0 ∧
    Event.writeFile (bmDockerfilePath envLambda) BM_DOCKERFILE ∉ main envLambda ∧
    Event.setCurrentDir (bmDockerfileDir envLambda) ∉ main envLambda :=
  ⟨by decide,
   (c1_builder_image_idempotent envLambda (by decide)).1,
   (c1_builder_image_idempotent envLambda (by decide)).2.1 BM_DOCKERFILE,
   (c1_builder_image_idempotent envLambda (by decide)).2.2⟩

/-- Witness of C2 on a concrete successful Lambda-mode run. -/
theorem c2_lambda_mode_packaging_witness :
    envLambda.build_success = true ∧
    ∃ pre, main envLambda = pre ++
      [Event.runCmd "docker" (dockerRunArgs envLambda
        ("cargo build --release -vv --target=x86_64-unknown-linux-musl -Z unstable-options --out-dir=/ && mv /"
          ++ envLambda.project_name ++ " /bootstrap && zip -j target/black_magic/"
          ++ envLambda.project_name ++ ".zip /bootstrap")),
       Event.print "...Done!"] :=
  ⟨rfl, c2_lambda_mode_packaging envLambda rfl rfl rfl (by decide) rfl
    (Or.inl (by decide)) rfl⟩

/-- Witness of C3 on a concrete successful Docker-mode run. -/
theorem c3_docker_mode_packaging_witness :
    envDocker.build_success = true ∧ envDocker.project_image_success = true ∧
    ∃ pre, main envDocker = pre ++
      [Event.writeFile (projectDockerfilePath envDocker)
        ("\nFROM scratch\nADD " ++ envDocker.project_name ++ ".tar.gz /\n"),
       Event.print "Building project image...",
       Event.setCurrentDir (bmDir envDocker),
       Event.runCmd "docker" ["build", "--no-cache", "-t",
         "bm_" ++ envDocker.project_name, "."],
       Event.setCurrentDir envDocker.current_dir,
       Event.print ("Project image: bm_" ++ envDocker.project_name),
       Event.print "...Done!"] :=
  ⟨rfl, rfl, c3_docker_mode_packaging envDocker rfl rfl rfl (by decide) rfl
    (Or.inl (by decide)) rfl rfl⟩

/-- Witness of C4 on a concrete invocation selecting neither mode. -/
theorem c4_mode_conflict_aborts_early_witness :
    envNone.is_docker = envNone.is_lambda ∧
    main envNone = [Event.print (if envNone.is_docker then
        "You can\x27t specify both at once, please build one then the other."
      else
        "You need to specify what to build. See `--help`.")] :=
  ⟨rfl, (c4_mode_conflict_aborts_early envNone rfl).1⟩

/-- Witness of C5 on a concrete invocation without a manifest. -/
theorem c5_missing_manifest_rejects_before_inspection_witness :
    envNoCargo.cargo_toml_exists = false ∧
    Event.runCmd "docker" ["image", "inspect", "black_magic"] ∉ main envNoCargo ∧
    main envNoCargo = [Event.runCmd "docker" ["--version"], Event.getCurrentDir,
      Event.print "This doesn\x27t look like a rust project. Are you in the right place? No `Cargo.toml` was found in this directory."] :=
  ⟨rfl,
   (c5_missing_manifest_rejects_before_inspection envNoCargo rfl).1,
   (c5_missing_manifest_rejects_before_inspection envNoCargo rfl).2.2 (by decide) rfl
     (by decide)⟩

/-- Witness of C6 on a concrete environment with only the registry cache. -/
theorem c6_mounts_exactly_project_root_and_existing_caches_witness :
    currentDirVolume envDocker ∈ mounts envDocker ∧
    (gitMountStr envDocker ∈ mounts envDocker ↔ envDocker.git_exists = true) ∧
    (registryMountStr envDocker ∈ mounts envDocker ↔ envDocker.registry_exists = true) ∧
    (currentDirVolume envDocker = currentDirVolume envDocker ∨
      currentDirVolume envDocker = gitMountStr envDocker ∨
      currentDirVolume envDocker = registryMountStr envDocker) :=
  ⟨(c6_mounts_exactly_project_root_and_existing_caches envDocker).2.1,
   (c6_mounts_exactly_project_root_and_existing_caches envDocker).2.2.1,
   (c6_mounts_exactly_project_root_and_existing_caches envDocker).2.2.2.1,
   (c6_mounts_exactly_project_root_and_existing_caches envDocker).2.2.2.2
     (currentDirVolume envDocker) (by decide)⟩

/-- Witness of C8 on a concrete host where the builder image is missing. -/
theorem c8_absence_test_is_exact_prefix_match_witness :
    envMissingImage.is_docker ≠ envMissingImage.is_lambda ∧
    (Event.runCmd "docker" ["build", "-t", "black_magic", "."] ∈ main envMissingImage
      ↔ strStartsWith envMissingImage.image_inspect_stderr
          "Error: No such image: black_magic" = true) :=
  ⟨by decide,
   c8_absence_test_is_exact_prefix_match envMissingImage (by decide) rfl (by decide) rfl⟩

/-- Witness of C9 on a concrete gated Docker-mode run. -/
theorem c9_output_dir_created_before_inspection_witness :
    (∃ rest, main envDocker =
      [Event.runCmd "docker" ["--version"], Event.getCurrentDir,
       Event.createDirAll (bmDir envDocker),
       Event.runCmd "docker" ["image", "inspect", "black_magic"]] ++ rest) ∧
    Event.removeDirAll (bmDir envDocker) ∉ main envDocker :=
  ⟨(c9_output_dir_created_before_inspection envDocker (by decide) rfl (by decide) rfl).1,
   (c9_output_dir_created_before_inspection envDocker (by decide) rfl (by decide) rfl).2
     (bmDir envDocker)⟩

/-- Witness of C10 on a concrete invocation where the spawn fails. -/
theorem c10_runtime_check_panics_on_spawn_failure_witness :
    main envNoSpawn = [Event.runCmd "docker" ["--version"],
      Event.panic "Unable to test for docker. Is docker installed on your system?"] :=
  (c10_runtime_check_panics_on_spawn_failure envNoSpawn (by decide)).1 rfl

end BlackMagic
